import Mathlib

/-!
Shallow embedding of the authentication/session flows of the hms_front
repository (src/src/services/user.ts: `authService.signUp`, `signIn`,
`signOut`, `getCurrentUser`, and the `ProtectedRoute` / `AuthRoute`
components of the application root).

External platform calls (the supabase SDK) are modelled by an environment
that supplies, for each call site, either a normally returned
`{ data, error }` value or a raised exception.  Error values produced by
the SDK are identified by a numeric tag (`Err.env`); `Error` objects
constructed by the application itself are identified by their message
(`Err.app`), mirroring JS object identity of freshly constructed errors.
Each flow is translated call-site by call-site from the source; the
fixed-delay sleeps are pure no-ops in the embedding.
-/

namespace HmsFront

/-- An error value: either a value produced by the platform SDK (opaque,
identified by a tag) or an `Error` constructed by the application code,
identified by the message passed to `new Error(...)`. -/
inductive Err where
  | env (n : Nat)
  | app (msg : String)
deriving DecidableEq, Repr

/-- Outcome of awaiting one SDK call: the call either resolves normally
with a value `a`, or rejects (throws) with an SDK error value tagged `e`. -/
inductive Resp (α : Type) where
  | ok (a : α)
  | exn (e : Nat)
deriving DecidableEq, Repr

/-- The session-store identity (`user` object returned by the auth SDK):
an id and a possibly-absent email (the source uses `user.email!`). -/
structure Principal where
  id : String
  email : Option String
deriving DecidableEq, Repr

/-- The minimal user record `{id, email, role, username}` returned by the
flows on success. -/
structure AppUser where
  id : String
  email : Option String
  role : String
  username : String
deriving DecidableEq, Repr

/-- The `AuthResponse` shape `{ user, error }` returned by every auth flow. -/
structure AuthResponse where
  user : Option AppUser
  error : Option Err
deriving DecidableEq, Repr

/-- `return { user: null, error }`. -/
@[simp] def failResp (e : Err) : AuthResponse := { user := none, error := some e }

/-- The `{username, role}` row selected from the `users` table. -/
structure ProfileRow where
  username : String
  role : String
deriving DecidableEq, Repr

/-- Observable external actions issued by a flow, in order. -/
inductive Action where
  | precheckSelect (email : String)
  | authSignUp (email : String)
  | insertProfile (attempt : Nat)
  | adminDeleteUser (id : String)
  | signInWithPassword (email : String)
  | selectProfile (id : String) (attempt : Nat)
  | authSignOut
  | rpcCreateDoctorProfile
  | authGetUser
  | authGetSession
  | selectDoctor (id : String)
  | toastError (msg : String)
deriving DecidableEq, Repr

/-! ### Account Provisioning Flow: `authService.signUp` -/

/-- The four inputs destructured from `SignUpCredentials`. -/
structure SignUpInput where
  email : String
  password : String
  username : String
  role : String
deriving DecidableEq, Repr

/-- Environment of external responses consumed by one `signUp` invocation:
the duplicate-email pre-check (`maybeSingle`, data = found row id), the
`auth.signUp` call (data.user, error), the profile insert attempts
(`insert...select().maybeSingle()`, indexed by 0-based attempt), and the
`auth.admin.deleteUser` compensation call (its `{error}`; the source
ignores the returned value entirely, so only a rejection is observable). -/
structure SignUpEnv where
  precheck : Resp (Option String × Option Nat)
  createAuth : Resp (Option Principal × Option Nat)
  insert : Nat → Resp (Option Unit × Option Nat)
  adminDelete : Resp (Option Nat)

/-- Result of the bounded profile-insert loop (`retries = 3`): success
after a number of attempts, exhaustion with the final `profileError`
(the loop overwrites `profileError = error` on every failing attempt,
even with `null`), or an attempt whose awaited call threw (the loop body
has no try/catch, so the exception escapes to the outer handler). -/
inductive InsertOut where
  | success (attempts : Nat)
  | failed (profileError : Option Err) (attempts : Nat)
  | thrown (e : Nat) (attempts : Nat)
deriving DecidableEq, Repr

/-- The `while (retries > 0)` insert loop of `signUp`.  `fuel` is the
remaining retry budget, `i` the 0-based index of the next attempt, and
`last` the current `profileError`.  Success requires `!error && data`. -/
def insertLoop (resp : Nat → Resp (Option Unit × Option Nat)) :
    Nat → Nat → Option Err → InsertOut
  | 0, i, last => .failed last i
  | fuel + 1, i, _last =>
    match resp i with
    | .exn e => .thrown e (i + 1)
    | .ok (some _, none) => .success (i + 1)
    | .ok (some _, some e) => insertLoop resp fuel (i + 1) (some (.env e))
    | .ok (none, err) => insertLoop resp fuel (i + 1) (err.map .env)

/-- Trace of the first `k` profile-insert attempts. -/
def insertTrace (k : Nat) : List Action := (List.range k).map .insertProfile

/-- `authService.signUp`, returning the `AuthResponse` together with the
ordered trace of external actions issued.  The outer try/catch of the
source is the translation of every thrown error into `failResp`. -/
def signUpRun (inp : SignUpInput) (env : SignUpEnv) :
    AuthResponse × List Action :=
  match env.precheck with
  | .exn e => (failResp (.env e), [.precheckSelect inp.email])
  | .ok (existingUser, _) =>
    if existingUser.isSome then
      -- `if (existingUser) return { user: null, error: new Error('User already exists') }`
      (failResp (.app "User already exists"), [.precheckSelect inp.email])
    else
      match env.createAuth with
      | .exn e =>
        (failResp (.env e), [.precheckSelect inp.email, .authSignUp inp.email])
      | .ok (u, signUpError) =>
        match signUpError with
        | some e =>
          -- `if (signUpError) throw signUpError`
          (failResp (.env e), [.precheckSelect inp.email, .authSignUp inp.email])
        | none =>
          match u with
          | none =>
            -- `if (!user) throw new Error('Failed to create user')`
            (failResp (.app "Failed to create user"),
             [.precheckSelect inp.email, .authSignUp inp.email])
          | some user =>
            -- 2s propagation wait, then the bounded insert loop
            match insertLoop env.insert 3 0 none with
            | .success k =>
              ({ user := some { id := user.id, email := some inp.email,
                                role := inp.role, username := inp.username },
                 error := none },
               [.precheckSelect inp.email, .authSignUp inp.email] ++ insertTrace k)
            | .thrown e k =>
              -- the awaited insert rejected: the exception skips the
              -- compensating delete and reaches the outer catch
              (failResp (.env e),
               [.precheckSelect inp.email, .authSignUp inp.email] ++ insertTrace k)
            | .failed profileError k =>
              -- `await supabase.auth.admin.deleteUser(user.id)` (result ignored)
              match env.adminDelete with
              | .exn e =>
                (failResp (.env e),
                 [.precheckSelect inp.email, .authSignUp inp.email] ++ insertTrace k
                   ++ [.adminDeleteUser user.id])
              | .ok _ =>
                -- `throw profileError || new Error('Failed to create user profile')`
                (failResp (profileError.getD (.app "Failed to create user profile")),
                 [.precheckSelect inp.email, .authSignUp inp.email] ++ insertTrace k
                   ++ [.adminDeleteUser user.id])

/-! ### Session Resolution Flow: `authService.signIn`, `signOut`,
`getCurrentUser`

The session store's process-wide current-session pointer is modelled as an
`Option String` (the id of the currently authenticated Principal).  A
successful password sign-in sets it; a sign-out call that resolves with
`error = null` clears it, while a sign-out that returns an error or
rejects leaves it in place (the server-side revocation failed before the
local session was removed). -/

/-- Environment of external responses consumed by one `signIn` invocation. -/
structure SignInEnv where
  signInPw : Resp (Option Principal × Option Nat)
  lookup : Nat → Resp (Option ProfileRow × Option Nat)
  signOutCall : Resp (Option Nat)
  rpcDoctor : Resp (Option Nat)

/-- Result of the bounded `{username, role}` lookup loop (`retries = 5`).
The loop body is wrapped in try/catch, so a rejected call is recorded in
`userError` and retried rather than escaping; on every failing attempt
`userError` is overwritten with that attempt's error (possibly `null`). -/
inductive LookupOut where
  | success (row : ProfileRow) (attempts : Nat)
  | failed (userError : Option Err) (attempts : Nat)
deriving DecidableEq, Repr

/-- The `while (retries > 0)` profile-lookup loop shared by `signIn` and
`getCurrentUser`.  Success requires `!error && data`. -/
def lookupLoop (resp : Nat → Resp (Option ProfileRow × Option Nat)) :
    Nat → Nat → Option Err → LookupOut
  | 0, i, last => .failed last i
  | fuel + 1, i, _last =>
    match resp i with
    | .exn e => lookupLoop resp fuel (i + 1) (some (.env e))
    | .ok (some row, none) => .success row (i + 1)
    | .ok (some _, some e) => lookupLoop resp fuel (i + 1) (some (.env e))
    | .ok (none, err) => lookupLoop resp fuel (i + 1) (err.map .env)

/-- Trace of the first `k` profile-lookup attempts for principal `id`. -/
def lookupTrace (id : String) (k : Nat) : List Action :=
  (List.range k).map (.selectProfile id)

/-- `authService.signIn`.  Returns the `AuthResponse`, the trace of
external actions, and the session pointer after the invocation (initial
session `s0`). -/
def signInRun (email _password : String) (s0 : Option String)
    (env : SignInEnv) : AuthResponse × List Action × Option String :=
  match env.signInPw with
  | .exn e => (failResp (.env e), [.signInWithPassword email], s0)
  | .ok (u, signInError) =>
    match signInError with
    | some e =>
      -- `if (signInError) throw signInError`; no session was established
      (failResp (.env e), [.signInWithPassword email], s0)
    | none =>
      match u with
      | none =>
        -- `if (!user) throw new Error('User not found')`
        (failResp (.app "User not found"), [.signInWithPassword email], s0)
      | some user =>
        -- the password sign-in succeeded: the session store now holds `user`
        let s1 : Option String := some user.id
        match lookupLoop env.lookup 5 0 none with
        | .failed userError k =>
          -- `await supabase.auth.signOut(); throw userError || new Error('Failed to load user data')`
          match env.signOutCall with
          | .exn e =>
            (failResp (.env e),
             [.signInWithPassword email] ++ lookupTrace user.id k
               ++ [.authSignOut], s1)
          | .ok so =>
            (failResp (userError.getD (.app "Failed to load user data")),
             [.signInWithPassword email] ++ lookupTrace user.id k
               ++ [.authSignOut],
             if so.isNone then none else s1)
        | .success row k =>
          if row.role = "doctor" then
            match env.rpcDoctor with
            | .exn e =>
              (failResp (.env e),
               [.signInWithPassword email] ++ lookupTrace user.id k
                 ++ [.rpcCreateDoctorProfile], s1)
            | .ok (some _) =>
              -- `if (doctorError) { await supabase.auth.signOut(); throw new Error('Failed to verify doctor profile') }`
              match env.signOutCall with
              | .exn e =>
                (failResp (.env e),
                 [.signInWithPassword email] ++ lookupTrace user.id k
                   ++ [.rpcCreateDoctorProfile, .authSignOut], s1)
              | .ok so =>
                (failResp (.app "Failed to verify doctor profile"),
                 [.signInWithPassword email] ++ lookupTrace user.id k
                   ++ [.rpcCreateDoctorProfile, .authSignOut],
                 if so.isNone then none else s1)
            | .ok none =>
              ({ user := some { id := user.id, email := user.email,
                                role := row.role, username := row.username },
                 error := none },
               [.signInWithPassword email] ++ lookupTrace user.id k
                 ++ [.rpcCreateDoctorProfile], s1)
          else
            ({ user := some { id := user.id, email := user.email,
                              role := row.role, username := row.username },
               error := none },
             [.signInWithPassword email] ++ lookupTrace user.id k, s1)

/-- `authService.signOut`: `{ error }` result, trace, resulting session. -/
def signOutRun (s0 : Option String) (resp : Resp (Option Nat)) :
    Option Err × List Action × Option String :=
  match resp with
  | .exn e => (some (.env e), [.authSignOut], s0)
  | .ok (some e) => (some (.env e), [.authSignOut], s0)
  | .ok none => (none, [.authSignOut], none)

/-- Environment of external responses consumed by one `getCurrentUser`
invocation.  `auth.getUser()` is destructured as `{ data: { user } }`:
the error component of the response is never read by the source. -/
structure GetUserEnv where
  getUser : Resp (Option Principal × Option Nat)
  lookup : Nat → Resp (Option ProfileRow × Option Nat)
  rpcDoctor : Resp (Option Nat)

/-- `authService.getCurrentUser`.  Note that, unlike `signIn`, neither the
exhausted-lookup branch nor the doctor-rpc failure branch issues a
sign-out: both simply `throw`, so the session pointer is never touched. -/
def getCurrentUserRun (s0 : Option String) (env : GetUserEnv) :
    AuthResponse × List Action × Option String :=
  match env.getUser with
  | .exn e => (failResp (.env e), [.authGetUser], s0)
  | .ok (none, _) =>
    -- `if (!user) return { user: null, error: null }`
    ({ user := none, error := none }, [.authGetUser], s0)
  | .ok (some user, _) =>
    match lookupLoop env.lookup 5 0 none with
    | .failed userError k =>
      -- `throw userError || new Error('User profile not found')`
      (failResp (userError.getD (.app "User profile not found")),
       [.authGetUser] ++ lookupTrace user.id k, s0)
    | .success row k =>
      if row.role = "doctor" then
        match env.rpcDoctor with
        | .exn e =>
          (failResp (.env e),
           [.authGetUser] ++ lookupTrace user.id k
             ++ [.rpcCreateDoctorProfile], s0)
        | .ok (some _) =>
          -- `if (doctorError) throw new Error('Failed to verify doctor profile')`
          (failResp (.app "Failed to verify doctor profile"),
           [.authGetUser] ++ lookupTrace user.id k
             ++ [.rpcCreateDoctorProfile], s0)
        | .ok none =>
          ({ user := some { id := user.id, email := user.email,
                            role := row.role, username := row.username },
             error := none },
           [.authGetUser] ++ lookupTrace user.id k
             ++ [.rpcCreateDoctorProfile], s0)
      else
        ({ user := some { id := user.id, email := user.email,
                          role := row.role, username := row.username },
           error := none },
         [.authGetUser] ++ lookupTrace user.id k, s0)

/-! ### Route Guard: `getUserDataWithRetry`, `ProtectedRoute`, `AuthRoute`

The guards are React components; their `checkAuth` effect is translated
into a function producing the component's final `(isAuthenticated,
userRole)` state, the ordered list of state snapshots flushed for
rendering (one per `await` boundary following state updates, plus the
initial and final states), the trace of external actions and toasts, and
the resulting session pointer.  The render function is translated
separately and applied to states. -/

/-- The `(isAuthenticated, userRole)` component state: `none` models the
initial `null` of each `useState`. -/
structure GuardState where
  isAuth : Option Bool
  role : Option String
deriving DecidableEq, Repr

/-- What a guard render produces: the loading placeholder, a `Navigate`
redirect, or the protected children. -/
inductive RenderOut where
  | loading
  | navigate (path : String)
  | children
deriving DecidableEq, Repr

/-- The module-level `getUserDataWithRetry` helper (maxRetries = 5):
`data` is the selected `role` string.  A failing attempt that returned
normally retries until the budget is exhausted, after which the fallback
`Error('Failed to get user data after retries')` is returned; a rejected
attempt is returned as the error if it was the last attempt and retried
otherwise. -/
def getUserDataWithRetry (resp : Nat → Resp (Option String × Option Nat)) :
    Nat → Nat → Option String × Option Err
  | 0, _ => (none, some (.app "Failed to get user data after retries"))
  | fuel + 1, i =>
    match resp i with
    | .ok (some role, none) => (some role, none)
    | .ok (some _, some _) => getUserDataWithRetry resp fuel (i + 1)
    | .ok (none, _) => getUserDataWithRetry resp fuel (i + 1)
    | .exn e =>
      if fuel = 0 then (none, some (.env e))
      else getUserDataWithRetry resp fuel (i + 1)

/-- Environment of external responses consumed by one `ProtectedRoute`
`checkAuth` run: `auth.getSession()` (destructured down to
`session?.user`), the profile-lookup attempts used by
`getUserDataWithRetry`, the `doctors` row check, the
`create_doctor_profile` rpc, and `auth.signOut()`. -/
structure GuardEnv where
  getSession : Resp (Option Principal)
  lookup : Nat → Resp (Option String × Option Nat)
  doctorSelect : Resp (Option Unit × Option Nat)
  rpcDoctor : Resp (Option Nat)
  signOutCall : Resp (Option Nat)

/-- Result of a `ProtectedRoute` `checkAuth` run. -/
structure GuardRun where
  final : GuardState
  states : List GuardState
  trace : List Action
  session : Option String
deriving Repr

/-- The access-denied toast message, which interpolates the user's role:
`Access denied. Your role (…) does not have permission to access this area.` -/
def deniedMsg (role : String) : String :=
  "Access denied. Your role (" ++ role ++
    ") does not have permission to access this area."

/-- The `checkAuth` effect body of `ProtectedRoute` (translated from the
source; the `onAuthStateChange` handler repeats the same logic on a
`SIGNED_IN` event and is covered by the same function). -/
def protectedCheckAuth (allowed : List String) (s0 : Option String)
    (env : GuardEnv) : GuardRun :=
  let st0 : GuardState := { isAuth := none, role := none }
  let denied : GuardState := { isAuth := some false, role := none }
  match env.getSession with
  | .exn _ =>
    -- outer catch: set (false, null), toast a generic auth error
    { final := denied, states := [st0, denied],
      trace := [.authGetSession,
        .toastError "Authentication error. Please try logging in again."],
      session := s0 }
  | .ok none =>
    -- `if (!session?.user) { setIsAuthenticated(false); setUserRole(null) }`
    { final := denied, states := [st0, denied],
      trace := [.authGetSession], session := s0 }
  | .ok (some user) =>
    match getUserDataWithRetry env.lookup 5 0 with
    | (some role, none) =>
      -- `userData` resolved; doctor bootstrap, then allow-list check
      let proceed : GuardRun :=
        if role ∈ allowed then
          { final := { isAuth := some true, role := some role },
            states := [st0, { isAuth := some true, role := some role }],
            trace := [.authGetSession], session := s0 }
        else
          -- toast the denial, `await supabase.auth.signOut()` (flushing the
          -- transient authorized state), then set (false, null)
          match env.signOutCall with
          | .exn _ =>
            { final := denied,
              states := [st0, { isAuth := some true, role := some role }, denied],
              trace := [.authGetSession, .toastError (deniedMsg role),
                .authSignOut,
                .toastError "Authentication error. Please try logging in again."],
              session := s0 }
          | .ok so =>
            { final := denied,
              states := [st0, { isAuth := some true, role := some role }, denied],
              trace := [.authGetSession, .toastError (deniedMsg role),
                .authSignOut],
              session := if so.isNone then none else s0 }
      if role = "doctor" then
        match env.doctorSelect with
        | .exn _ =>
          -- the awaited doctors select rejected: outer catch
          { final := denied, states := [st0, denied],
            trace := [.authGetSession, .selectDoctor user.id,
              .toastError "Authentication error. Please try logging in again."],
            session := s0 }
        | .ok (doctorData, doctorError) =>
          if doctorError.isSome || doctorData.isNone then
            match env.rpcDoctor with
            | .exn _ =>
              { final := denied, states := [st0, denied],
                trace := [.authGetSession, .selectDoctor user.id,
                  .rpcCreateDoctorProfile,
                  .toastError "Authentication error. Please try logging in again."],
                session := s0 }
            | .ok (some _) =>
              -- `await supabase.auth.signOut()`; set (false, null); toast
              match env.signOutCall with
              | .exn _ =>
                { final := denied, states := [st0, denied],
                  trace := [.authGetSession, .selectDoctor user.id,
                    .rpcCreateDoctorProfile, .authSignOut,
                    .toastError "Authentication error. Please try logging in again."],
                  session := s0 }
              | .ok so =>
                { final := denied, states := [st0, denied],
                  trace := [.authGetSession, .selectDoctor user.id,
                    .rpcCreateDoctorProfile, .authSignOut,
                    .toastError "Failed to create doctor profile. Please contact your administrator."],
                  session := if so.isNone then none else s0 }
            | .ok none =>
              { proceed with
                trace := [.authGetSession, .selectDoctor user.id,
                  .rpcCreateDoctorProfile] ++ proceed.trace.drop 1 }
          else
            { proceed with
              trace := [.authGetSession, .selectDoctor user.id]
                ++ proceed.trace.drop 1 }
      else proceed
    | (some _, some _) | (none, _) =>
      -- `if (error || !userData)`: sign out, set (false, null), toast
      match env.signOutCall with
      | .exn _ =>
        { final := denied, states := [st0, denied],
          trace := [.authGetSession, .authSignOut,
            .toastError "Authentication error. Please try logging in again."],
          session := s0 }
      | .ok so =>
        { final := denied, states := [st0, denied],
          trace := [.authGetSession, .authSignOut,
            .toastError "Failed to load user data. Please try logging in again."],
          session := if so.isNone then none else s0 }

/-- The render body of `ProtectedRoute`: loading while either state is
still `null`, a redirect to `/login` when unauthenticated or the role is
not allow-listed, the children otherwise. -/
def protectedRender (allowed : List String) (st : GuardState) : RenderOut :=
  match st.isAuth, st.role with
  | none, _ => .loading
  | some _, none => .loading
  | some a, some r =>
    if a = false ∨ r ∉ allowed then .navigate "/login" else .children

/-- Environment consumed by one `AuthRoute` `checkAuth` run. -/
structure AuthRouteEnv where
  getSession : Resp (Option Principal)
  lookup : Nat → Resp (Option String × Option Nat)

/-- The `checkAuth` effect body of `AuthRoute`: resolves the component's
final `(isAuthenticated, userRole)` state. -/
def authRouteCheck (env : AuthRouteEnv) : GuardState :=
  match env.getSession with
  | .exn _ => { isAuth := some false, role := none }
  | .ok none => { isAuth := some false, role := none }
  | .ok (some _) =>
    match getUserDataWithRetry env.lookup 5 0 with
    | (some role, none) => { isAuth := some true, role := some role }
    | (some _, some _) => { isAuth := some false, role := none }
    | (none, _) => { isAuth := some false, role := none }

/-- The role-to-dashboard mapping of `AuthRoute`:
`userRole === 'admin' ? '/admin' : … : '/login'`. -/
def dashboardPath (role : Option String) : String :=
  if role = some "admin" then "/admin"
  else if role = some "doctor" then "/doctor"
  else if role = some "department" then "/department"
  else "/login"

/-- The render body of `AuthRoute`: loading while `isAuthenticated` is
`null`, a redirect to the role's dashboard when authenticated, the
sign-in/sign-up children otherwise. -/
def authRouteRender (st : GuardState) : RenderOut :=
  match st.isAuth with
  | none => .loading
  | some true => .navigate (dashboardPath st.role)
  | some false => .children

/-! ### Concrete environments used by witnesses and counterexamples -/

/-- Sign-up environment: empty pre-check, Principal `u1` created, the
profile insert fails once (SDK error 1) and succeeds on the second
attempt. -/
def c5Env : SignUpEnv :=
  { precheck := .ok (none, none),
    createAuth := .ok (some { id := "u1", email := some "a@x.com" }, none),
    insert := fun i => if i = 0 then .ok (none, some 1) else .ok (some (), none),
    adminDelete := .ok none }

/-- Sign-up environment: Principal `u1` created, all three profile-insert
attempts return SDK errors 1, 2, 3, and the compensating administrative
delete resolves normally. -/
def c1Env : SignUpEnv :=
  { precheck := .ok (none, none),
    createAuth := .ok (some { id := "u1", email := some "a@x.com" }, none),
    insert := fun i => .ok (none, some (i + 1)),
    adminDelete := .ok none }

/-- Like `c1Env`, except that the administrative delete call rejects with
SDK error 99. -/
def c1EnvX : SignUpEnv :=
  { precheck := .ok (none, none),
    createAuth := .ok (some { id := "u1", email := some "a@x.com" }, none),
    insert := fun i => .ok (none, some (i + 1)),
    adminDelete := .exn 99 }

/-- Sign-in environment: password sign-in succeeds for `u1`, every
profile lookup returns an SDK error (tags 10..14), sign-out resolves
normally. -/
def c2EnvIn : SignInEnv :=
  { signInPw := .ok (some { id := "u1", email := some "a@x.com" }, none),
    lookup := fun i => .ok (none, some (i + 10)),
    signOutCall := .ok none,
    rpcDoctor := .ok none }

/-- Session-restore environment: `auth.getUser` reports Principal `u1`,
every profile lookup returns an SDK error (tags 10..14). -/
def c2EnvCur : GetUserEnv :=
  { getUser := .ok (some { id := "u1", email := some "a@x.com" }, none),
    lookup := fun i => .ok (none, some (i + 10)),
    rpcDoctor := .ok none }

/-- Sign-in environment: sign-in succeeds for `u1`, the first lookup
resolves a doctor row, and the `create_doctor_profile` rpc reports an
error (tag 3). -/
def c3EnvIn : SignInEnv :=
  { signInPw := .ok (some { id := "u1", email := some "a@x.com" }, none),
    lookup := fun _ => .ok (some { username := "drbob", role := "doctor" }, none),
    signOutCall := .ok none,
    rpcDoctor := .ok (some 3) }

/-- Session-restore environment: `auth.getUser` reports `u1`, the first
lookup resolves a doctor row, and the `create_doctor_profile` rpc reports
an error (tag 3). -/
def c3EnvCur : GetUserEnv :=
  { getUser := .ok (some { id := "u1", email := some "a@x.com" }, none),
    lookup := fun _ => .ok (some { username := "drbob", role := "doctor" }, none),
    rpcDoctor := .ok (some 3) }

/-- Route-guard environment: an active session for `u1` whose profile
resolves to role `registration` on the first lookup; sign-out resolves
normally. -/
def c6Env : GuardEnv :=
  { getSession := .ok (some { id := "u1", email := some "r@x.com" }),
    lookup := fun _ => .ok (some "registration", none),
    doctorSelect := .ok (none, none),
    rpcDoctor := .ok none,
    signOutCall := .ok none }

/-- Auth-route environment: an active session for `u1` whose profile
resolves to role `department` on the first lookup. -/
def c7Env : AuthRouteEnv :=
  { getSession := .ok (some { id := "u1", email := some "d@x.com" }),
    lookup := fun _ => .ok (some "department", none) }

/-- Session-restore environment in which the session store reports no
current authenticated user. -/
def c8EnvCur : GetUserEnv :=
  { getUser := .ok (none, none),
    lookup := fun _ => .ok (none, none),
    rpcDoctor := .ok none }

/-- The result-with-error dichotomy asserted by the spec's propagation
policy: either a present user with a null error, or a null user with a
non-null error. -/
def resultDichotomy (r : AuthResponse) : Prop :=
  (r.user ≠ none ∧ r.error = none) ∨ (r.user = none ∧ r.error ≠ none)

instance (r : AuthResponse) : Decidable (resultDichotomy r) := by
  unfold resultDichotomy; infer_instance

/-! ### Helper lemmas about the bounded retry loops -/

/-- A successful insert loop used at least one and at most `i + fuel`
attempts. -/
theorem insertLoop_success_bound (resp : Nat → Resp (Option Unit × Option Nat)) :
    ∀ fuel i last k, insertLoop resp fuel i last = .success k →
      i < k ∧ k ≤ i + fuel := by
  intro fuel
  induction fuel with
  | zero =>
    intro i last k h
    simp [insertLoop] at h
  | succ n ih =>
    intro i last k h
    rw [insertLoop] at h
    split at h
    · exact absurd h (by simp)
    · obtain rfl : i + 1 = k := by injection h
      omega
    · have := ih (i + 1) _ _ h
      omega
    · have := ih (i + 1) _ _ h
      omega

/-- An exhausted insert loop whose running `profileError` holds only
SDK-produced errors ends with a `profileError` of the same shape: the
application never stores an `Err.app` there. -/
theorem insertLoop_failed_shape (resp : Nat → Resp (Option Unit × Option Nat)) :
    ∀ fuel i last le k,
      (last = none ∨ ∃ n, last = some (.env n)) →
      insertLoop resp fuel i last = .failed le k →
      le = none ∨ ∃ n, le = some (.env n) := by
  intro fuel
  induction fuel with
  | zero =>
    intro i last le k hlast h
    simp [insertLoop] at h
    exact h.1 ▸ hlast
  | succ n ih =>
    intro i last le k hlast h
    rw [insertLoop] at h
    rcases hresp : resp i with ⟨d, err⟩ | e
    · rw [hresp] at h
      rcases d with _ | v
      · rcases err with _ | e2
        · exact ih (i + 1) _ _ _ (Or.inl rfl) (by simpa using h)
        · exact ih (i + 1) _ _ _ (Or.inr ⟨e2, rfl⟩) (by simpa using h)
      · rcases err with _ | e2
        · simp at h
        · exact ih (i + 1) _ _ _ (Or.inr ⟨e2, rfl⟩) (by simpa using h)
    · rw [hresp] at h
      simp at h

/-! ### Claim theorems -/

/-- **C4** (confirmed).  For every sign-up invocation where the pre-check
lookup finds an existing Profile with the given email, `signUp` returns
`user = null` with the `'User already exists'` error and performs no
further action: the trace is exactly the pre-check select, so no
Principal creation, no Profile insert and no delete are issued. -/
theorem c4_signup_already_exists (inp : SignUpInput) (env : SignUpEnv)
    (rid : String) (pe : Option Nat)
    (h : env.precheck = .ok (some rid, pe)) :
    signUpRun inp env =
      ({ user := none, error := some (.app "User already exists") },
       [.precheckSelect inp.email]) := by
  simp [signUpRun, h]

/-- Witness for C4 at a concrete environment whose pre-check finds a row. -/
theorem c4_signup_already_exists_witness :
    signUpRun { email := "a@x.com", password := "secret1",
                username := "alice", role := "admin" }
      { precheck := .ok (some "row7", none),
        createAuth := .ok (some { id := "u1", email := some "a@x.com" }, none),
        insert := fun _ => .ok (some (), none),
        adminDelete := .ok none } =
      ({ user := none, error := some (.app "User already exists") },
       [.precheckSelect "a@x.com"]) :=
  c4_signup_already_exists _ _ "row7" none rfl

/-- **C5** (confirmed).  For every sign-up invocation in which Principal
creation succeeds and the Profile insert succeeds on attempt `k`,
`signUp` performs exactly `k` insert attempts (the trace ends with the
`k` inserts and nothing further), `k ∈ {1, 2, 3}`, and the result is the
minimal user record built from the created Principal's id and the input
email, role and username, with `error = null`. -/
theorem c5_signup_success_attempts (inp : SignUpInput) (env : SignUpEnv)
    (u : Principal) (pe : Option Nat) (k : Nat)
    (hpre : env.precheck = .ok (none, pe))
    (hca : env.createAuth = .ok (some u, none))
    (hins : insertLoop env.insert 3 0 none = .success k) :
    (signUpRun inp env).1 =
      { user := some { id := u.id, email := some inp.email,
                       role := inp.role, username := inp.username },
        error := none } ∧
    (signUpRun inp env).2 =
      [.precheckSelect inp.email, .authSignUp inp.email] ++ insertTrace k ∧
    1 ≤ k ∧ k ≤ 3 := by
  have hb := insertLoop_success_bound env.insert 3 0 none k hins
  refine ⟨?_, ?_, by omega, by omega⟩ <;>
    simp [signUpRun, hpre, hca, hins]

/-- Witness for C5: success on the second attempt yields exactly two
insert attempts and the end-to-end success record of the spec scenario. -/
theorem c5_signup_success_attempts_witness :
    (signUpRun { email := "a@x.com", password := "secret1",
                 username := "alice", role := "admin" } c5Env).1 =
      { user := some { id := "u1", email := some "a@x.com",
                       role := "admin", username := "alice" },
        error := none } ∧
    (signUpRun { email := "a@x.com", password := "secret1",
                 username := "alice", role := "admin" } c5Env).2 =
      [.precheckSelect "a@x.com", .authSignUp "a@x.com"] ++ insertTrace 2 ∧
    1 ≤ 2 ∧ 2 ≤ 3 :=
  c5_signup_success_attempts _ c5Env { id := "u1", email := some "a@x.com" }
    none 2 rfl rfl (by decide)

/-- **C9** (confirmed).  The duplicate-email pre-check is best-effort: a
pre-check that returns an error but no row behaves exactly like one that
returns neither (the error is never read), the flow still goes on to
create the Principal, and the `'User already exists'` failure is produced
exactly when the pre-check returned a row. -/
theorem c9_precheck_best_effort :
    (∀ (inp : SignUpInput) (env : SignUpEnv) (e : Nat),
      signUpRun inp { env with precheck := .ok (none, some e) } =
        signUpRun inp { env with precheck := .ok (none, none) }) ∧
    (∀ (inp : SignUpInput) (env : SignUpEnv) (e : Nat),
      Action.authSignUp inp.email ∈
        (signUpRun inp { env with precheck := .ok (none, some e) }).2) ∧
    (∀ (inp : SignUpInput) (env : SignUpEnv),
      (signUpRun inp env).1.error = some (.app "User already exists") ↔
        ∃ rid pe, env.precheck = .ok (some rid, pe)) := by
  refine ⟨fun inp env e => rfl, fun inp env e => ?_, fun inp env => ?_⟩
  · obtain ⟨pc, ca, ins, del⟩ := env
    rcases ca with ⟨cu, ce⟩ | e2
    · rcases ce with _ | e2
      · rcases cu with _ | u
        · simp [signUpRun]
        · rcases hins : insertLoop ins 3 0 none with k | ⟨le, k⟩ | ⟨e3, k⟩ <;>
            simp [signUpRun, hins] <;> rcases del with d | e4 <;> simp
      · simp [signUpRun]
    · simp [signUpRun]
  · constructor
    · intro herr
      obtain ⟨pc, ca, ins, del⟩ := env
      rcases pc with ⟨eu, pe⟩ | e1
      · rcases eu with _ | rid
        · exfalso
          rcases ca with ⟨cu, ce⟩ | e2
          · rcases ce with _ | e2
            · rcases cu with _ | u
              · simp [signUpRun] at herr
              · rcases hins : insertLoop ins 3 0 none with k | ⟨le, k⟩ | ⟨e3, k⟩
                · simp [signUpRun, hins] at herr
                · rcases del with d | e4
                  · have hsh := insertLoop_failed_shape ins 3 0 none le k
                      (Or.inl rfl) hins
                    rcases hsh with rfl | ⟨n, rfl⟩ <;>
                      simp [signUpRun, hins] at herr
                  · simp [signUpRun, hins] at herr
                · simp [signUpRun, hins] at herr
            · simp [signUpRun] at herr
          · simp [signUpRun] at herr
        · exact ⟨rid, pe, rfl⟩
      · simp [signUpRun] at herr
    · rintro ⟨rid, pe, h⟩
      simp [signUpRun, h]

/-- **C1** (counterexample).  In `c1EnvX` the Principal is created and all
three insert attempts return SDK errors 1, 2, 3, so the last observed
insert error is `Err.env 3`; but the administrative delete call rejects
with SDK error 99, and `signUp` returns that rejection — not the last
observed insert error — even though the delete was issued.  This refutes
the claim that the returned failure always carries the last observed
insert error. -/
theorem c1_rollback_error_counterexample :
    Action.adminDeleteUser "u1" ∈
      (signUpRun { email := "a@x.com", password := "secret1",
                   username := "alice", role := "admin" } c1EnvX).2 ∧
    (signUpRun { email := "a@x.com", password := "secret1",
                 username := "alice", role := "admin" } c1EnvX).1.error =
      some (.env 99) ∧
    (signUpRun { email := "a@x.com", password := "secret1",
                 username := "alice", role := "admin" } c1EnvX).1.error ≠
      some (.env 3) ∧
    c1EnvX.insert 2 = .ok (none, some 3) := by
  decide

/-- **C1** (amended).  For every sign-up invocation in which Principal
creation succeeds and each of the 3 Profile insert attempts returns
normally with a failure, `signUp` issues an administrative delete of the
Principal it created and returns `user = null` with a non-null error;
when the administrative delete itself returns normally, that error is the
last insert attempt's error if that attempt returned one, and the generic
`'Failed to create user profile'` error otherwise. -/
theorem c1_signup_rollback_amended (inp : SignUpInput) (env : SignUpEnv)
    (u : Principal) (pe : Option Nat) (le : Option Err)
    (hpre : env.precheck = .ok (none, pe))
    (hca : env.createAuth = .ok (some u, none))
    (hins : insertLoop env.insert 3 0 none = .failed le 3) :
    Action.adminDeleteUser u.id ∈ (signUpRun inp env).2 ∧
    (signUpRun inp env).1.user = none ∧
    (signUpRun inp env).1.error ≠ none ∧
    (∀ d, env.adminDelete = .ok d →
      (signUpRun inp env).1.error =
        some (le.getD (.app "Failed to create user profile"))) := by
  rcases hdel : env.adminDelete with d | e <;>
    simp [signUpRun, hpre, hca, hins, hdel]

/-- Witness for the amended C1 at `c1Env`: all three inserts fail with
SDK errors 1, 2, 3, the delete resolves normally, and the flow returns
the last insert error `Err.env 3`. -/
theorem c1_signup_rollback_witness :
    Action.adminDeleteUser "u1" ∈
      (signUpRun { email := "a@x.com", password := "secret1",
                   username := "alice", role := "admin" } c1Env).2 ∧
    (signUpRun { email := "a@x.com", password := "secret1",
                 username := "alice", role := "admin" } c1Env).1.user = none ∧
    (signUpRun { email := "a@x.com", password := "secret1",
                 username := "alice", role := "admin" } c1Env).1.error ≠ none ∧
    (∀ d, c1Env.adminDelete = .ok d →
      (signUpRun { email := "a@x.com", password := "secret1",
                   username := "alice", role := "admin" } c1Env).1.error =
        some ((some (Err.env 3)).getD (.app "Failed to create user profile"))) :=
  c1_signup_rollback_amended _ c1Env { id := "u1", email := some "a@x.com" }
    none (some (.env 3)) rfl rfl (by decide)

/-- **C2** (counterexample).  In `c2EnvCur` the session store holds
Principal `u1` and every one of the 5 profile lookups fails, yet
`getCurrentUser` issues no sign-out and leaves the session in place while
returning a failure: the claim that the Session Resolution Flow signs the
Principal out — and that there is no current session afterwards — is
false on the `getCurrentUser` path. -/
theorem c2_getCurrentUser_no_signout_counterexample :
    Action.authSignOut ∉ (getCurrentUserRun (some "u1") c2EnvCur).2.1 ∧
    (getCurrentUserRun (some "u1") c2EnvCur).2.2 = some "u1" ∧
    (getCurrentUserRun (some "u1") c2EnvCur).1.user = none ∧
    (getCurrentUserRun (some "u1") c2EnvCur).1.error = some (.env 14) := by
  decide

/-- **C2** (amended).  When the Profile lookup fails on every one of the
5 attempts: `signIn` issues a sign-out, returns `user = null` with a
non-null error — when the sign-out resolves normally, that error is the
last lookup attempt's error if one was observed and the generic
`'Failed to load user data'` error otherwise, and when the sign-out
resolves with no error there is no current session afterwards;
`getCurrentUser` returns `user = null` carrying the last lookup
attempt's error (or the generic `'User profile not found'` error when
none was observed) without issuing any sign-out, leaving the session
pointer unchanged. -/
theorem c2_lookup_exhausted_amended :
    (∀ (email pw : String) (s0 : Option String) (env : SignInEnv)
        (u : Principal) (le : Option Err),
      env.signInPw = .ok (some u, none) →
      lookupLoop env.lookup 5 0 none = .failed le 5 →
      Action.authSignOut ∈ (signInRun email pw s0 env).2.1 ∧
      (signInRun email pw s0 env).1.user = none ∧
      (signInRun email pw s0 env).1.error ≠ none ∧
      (∀ so, env.signOutCall = .ok so →
        (signInRun email pw s0 env).1.error =
          some (le.getD (.app "Failed to load user data"))) ∧
      (env.signOutCall = .ok none → (signInRun email pw s0 env).2.2 = none)) ∧
    (∀ (s0 : Option String) (env : GetUserEnv) (u : Principal)
        (ge : Option Nat) (le : Option Err),
      env.getUser = .ok (some u, ge) →
      lookupLoop env.lookup 5 0 none = .failed le 5 →
      Action.authSignOut ∉ (getCurrentUserRun s0 env).2.1 ∧
      (getCurrentUserRun s0 env).1.user = none ∧
      (getCurrentUserRun s0 env).1.error =
        some (le.getD (.app "User profile not found")) ∧
      (getCurrentUserRun s0 env).2.2 = s0) := by
  constructor
  · intro email pw s0 env u le h1 h2
    rcases hso : env.signOutCall with so | e <;>
      simp [signInRun, h1, h2, hso, lookupTrace]
  · intro s0 env u ge le h1 h2
    simp [getCurrentUserRun, h1, h2, lookupTrace]

/-- Witness for the amended C2: the `signIn` half at `c2EnvIn` and the
`getCurrentUser` half at `c2EnvCur`, both with all 5 lookups failing with
SDK errors 10..14, so the returned error is the last lookup error
`Err.env 14`. -/
theorem c2_lookup_exhausted_witness :
    (Action.authSignOut ∈ (signInRun "a@x.com" "pw" none c2EnvIn).2.1 ∧
     (signInRun "a@x.com" "pw" none c2EnvIn).1.user = none ∧
     (signInRun "a@x.com" "pw" none c2EnvIn).1.error ≠ none ∧
     (∀ so, c2EnvIn.signOutCall = .ok so →
       (signInRun "a@x.com" "pw" none c2EnvIn).1.error =
         some ((some (Err.env 14)).getD (.app "Failed to load user data"))) ∧
     (c2EnvIn.signOutCall = .ok none →
       (signInRun "a@x.com" "pw" none c2EnvIn).2.2 = none)) ∧
    (Action.authSignOut ∉ (getCurrentUserRun (some "u1") c2EnvCur).2.1 ∧
     (getCurrentUserRun (some "u1") c2EnvCur).1.user = none ∧
     (getCurrentUserRun (some "u1") c2EnvCur).1.error =
       some ((some (Err.env 14)).getD (.app "User profile not found")) ∧
     (getCurrentUserRun (some "u1") c2EnvCur).2.2 = some "u1") :=
  ⟨c2_lookup_exhausted_amended.1 "a@x.com" "pw" none c2EnvIn
      { id := "u1", email := some "a@x.com" } (some (.env 14)) rfl (by decide),
   c2_lookup_exhausted_amended.2 (some "u1") c2EnvCur
      { id := "u1", email := some "a@x.com" } none (some (.env 14)) rfl
      (by decide)⟩

/-- **C3** (counterexample).  In `c3EnvCur` the session store holds `u1`,
the profile resolves to role `doctor`, and the `create_doctor_profile`
rpc reports an error; `getCurrentUser` returns the `'Failed to verify
doctor profile'` failure but issues no sign-out and leaves the session in
place, refuting the claim that the flow signs the Principal out when the
ensure-doctor-record procedure fails. -/
theorem c3_getCurrentUser_doctor_counterexample :
    Action.rpcCreateDoctorProfile ∈ (getCurrentUserRun (some "u1") c3EnvCur).2.1 ∧
    Action.authSignOut ∉ (getCurrentUserRun (some "u1") c3EnvCur).2.1 ∧
    (getCurrentUserRun (some "u1") c3EnvCur).1.error =
      some (.app "Failed to verify doctor profile") ∧
    (getCurrentUserRun (some "u1") c3EnvCur).2.2 = some "u1" := by
  decide

/-- **C3** (amended).  Whenever the Session Resolution Flow resolves role
`doctor` it invokes the `create_doctor_profile` procedure
unconditionally; when that procedure reports failure, `signIn` issues a
sign-out and returns a failure (`'Failed to verify doctor profile'` when
the sign-out returns normally), while `getCurrentUser` returns the
`'Failed to verify doctor profile'` failure without signing out, leaving
the session unchanged. -/
theorem c3_doctor_bootstrap_amended :
    (∀ (email pw : String) (s0 : Option String) (env : SignInEnv)
        (u : Principal) (row : ProfileRow) (k : Nat),
      env.signInPw = .ok (some u, none) →
      lookupLoop env.lookup 5 0 none = .success row k →
      row.role = "doctor" →
      Action.rpcCreateDoctorProfile ∈ (signInRun email pw s0 env).2.1 ∧
      (∀ d, env.rpcDoctor = .ok (some d) →
        Action.authSignOut ∈ (signInRun email pw s0 env).2.1 ∧
        (signInRun email pw s0 env).1.user = none ∧
        (signInRun email pw s0 env).1.error ≠ none ∧
        (∀ so, env.signOutCall = .ok so →
          (signInRun email pw s0 env).1.error =
            some (.app "Failed to verify doctor profile")))) ∧
    (∀ (s0 : Option String) (env : GetUserEnv) (u : Principal)
        (ge : Option Nat) (row : ProfileRow) (k : Nat),
      env.getUser = .ok (some u, ge) →
      lookupLoop env.lookup 5 0 none = .success row k →
      row.role = "doctor" →
      Action.rpcCreateDoctorProfile ∈ (getCurrentUserRun s0 env).2.1 ∧
      (∀ d, env.rpcDoctor = .ok (some d) →
        Action.authSignOut ∉ (getCurrentUserRun s0 env).2.1 ∧
        (getCurrentUserRun s0 env).1.user = none ∧
        (getCurrentUserRun s0 env).1.error =
          some (.app "Failed to verify doctor profile") ∧
        (getCurrentUserRun s0 env).2.2 = s0)) := by
  constructor
  · intro email pw s0 env u row k h1 h2 h3
    constructor
    · rcases hrpc : env.rpcDoctor with r | e
      · rcases r with _ | d
        · simp [signInRun, h1, h2, h3, hrpc, lookupTrace]
        · rcases hso : env.signOutCall with so | e2 <;>
            simp [signInRun, h1, h2, h3, hrpc, hso, lookupTrace]
      · simp [signInRun, h1, h2, h3, hrpc, lookupTrace]
    · intro d hrpc
      rcases hso : env.signOutCall with so | e2 <;>
        simp [signInRun, h1, h2, h3, hrpc, hso, lookupTrace]
  · intro s0 env u ge row k h1 h2 h3
    constructor
    · rcases hrpc : env.rpcDoctor with r | e
      · rcases r with _ | d <;>
          simp [getCurrentUserRun, h1, h2, h3, hrpc, lookupTrace]
      · simp [getCurrentUserRun, h1, h2, h3, hrpc, lookupTrace]
    · intro d hrpc
      simp [getCurrentUserRun, h1, h2, h3, hrpc, lookupTrace]

/-- Witness for the amended C3: the `signIn` half at `c3EnvIn` and the
`getCurrentUser` half at `c3EnvCur`, both resolving a doctor whose
`create_doctor_profile` rpc reports an error. -/
theorem c3_doctor_bootstrap_witness :
    (Action.rpcCreateDoctorProfile ∈ (signInRun "a@x.com" "pw" none c3EnvIn).2.1 ∧
     (∀ d, c3EnvIn.rpcDoctor = .ok (some d) →
       Action.authSignOut ∈ (signInRun "a@x.com" "pw" none c3EnvIn).2.1 ∧
       (signInRun "a@x.com" "pw" none c3EnvIn).1.user = none ∧
       (signInRun "a@x.com" "pw" none c3EnvIn).1.error ≠ none ∧
       (∀ so, c3EnvIn.signOutCall = .ok so →
         (signInRun "a@x.com" "pw" none c3EnvIn).1.error =
           some (.app "Failed to verify doctor profile")))) ∧
    (Action.rpcCreateDoctorProfile ∈
       (getCurrentUserRun (some "u1") c3EnvCur).2.1 ∧
     (∀ d, c3EnvCur.rpcDoctor = .ok (some d) →
       Action.authSignOut ∉ (getCurrentUserRun (some "u1") c3EnvCur).2.1 ∧
       (getCurrentUserRun (some "u1") c3EnvCur).1.user = none ∧
       (getCurrentUserRun (some "u1") c3EnvCur).1.error =
         some (.app "Failed to verify doctor profile") ∧
       (getCurrentUserRun (some "u1") c3EnvCur).2.2 = some "u1")) :=
  ⟨c3_doctor_bootstrap_amended.1 "a@x.com" "pw" none c3EnvIn
      { id := "u1", email := some "a@x.com" }
      { username := "drbob", role := "doctor" } 1 rfl (by decide) rfl,
   c3_doctor_bootstrap_amended.2 (some "u1") c3EnvCur
      { id := "u1", email := some "a@x.com" } none
      { username := "drbob", role := "doctor" } 1 rfl (by decide) rfl⟩

/-- **C6** (counterexample).  In `c6Env` a Principal resolved to role
`registration` hits a route allow-listing only `admin`: the guard's final
state is `(isAuthenticated = false, userRole = null)`, which the render
body maps to the loading placeholder — not to the `/login` redirect —
because the `userRole === null` check precedes the redirect branch.  This
refutes the claim that the guard ends in a state redirecting to the
sign-in route. -/
theorem c6_denied_renders_loading_counterexample :
    protectedRender ["admin"]
        (protectedCheckAuth ["admin"] (some "u1") c6Env).final = .loading ∧
    protectedRender ["admin"]
        (protectedCheckAuth ["admin"] (some "u1") c6Env).final ≠
      .navigate "/login" ∧
    Action.authSignOut ∈ (protectedCheckAuth ["admin"] (some "u1") c6Env).trace := by
  decide

/-- **C6** (amended).  For every navigation in which a session is active,
resolution succeeds with role `role` (with the doctor bootstrap
succeeding when `role` is `doctor`), and `role` is not in the route's
allow-list: the guard issues a sign-out (clearing the session when the
sign-out resolves with no error), surfaces the access-denied toast naming
`role`, and never renders the protected children in any flushed state;
the `/login` redirect is rendered only from the transient
`(true, role)` state flushed before the sign-out, while the guard's final
state is `(false, null)`, which renders the loading placeholder. -/
theorem c6_route_guard_denied_amended (allowed : List String)
    (s0 : Option String) (env : GuardEnv) (u : Principal) (role : String)
    (hs : env.getSession = .ok (some u))
    (hl : getUserDataWithRetry env.lookup 5 0 = (some role, none))
    (hdoc : role = "doctor" → env.doctorSelect = .ok (some (), none))
    (hna : role ∉ allowed) :
    Action.authSignOut ∈ (protectedCheckAuth allowed s0 env).trace ∧
    Action.toastError (deniedMsg role) ∈ (protectedCheckAuth allowed s0 env).trace ∧
    (∀ st ∈ (protectedCheckAuth allowed s0 env).states,
      protectedRender allowed st ≠ .children) ∧
    GuardState.mk (some true) (some role) ∈
      (protectedCheckAuth allowed s0 env).states ∧
    protectedRender allowed { isAuth := some true, role := some role } =
      .navigate "/login" ∧
    (protectedCheckAuth allowed s0 env).final =
      { isAuth := some false, role := none } ∧
    protectedRender allowed (protectedCheckAuth allowed s0 env).final =
      .loading ∧
    (env.signOutCall = .ok none →
      (protectedCheckAuth allowed s0 env).session = none) := by
  by_cases hdr : role = "doctor"
  · subst hdr
    have hds := hdoc rfl
    rcases hso : env.signOutCall with so | e <;>
      simp [protectedCheckAuth, protectedRender, hs, hl, hds, hso, hna] <;>
      exact fun h1 h2 => absurd h1 h2
  · rcases hso : env.signOutCall with so | e <;>
      simp [protectedCheckAuth, protectedRender, hs, hl, hdr, hso, hna] <;>
      exact fun h1 h2 => absurd h1 h2

/-- Witness for the amended C6 at `c6Env`: a `registration` Principal on
a route allow-listing only `admin`. -/
theorem c6_route_guard_denied_witness :
    Action.authSignOut ∈ (protectedCheckAuth ["admin"] (some "u1") c6Env).trace ∧
    Action.toastError (deniedMsg "registration") ∈
      (protectedCheckAuth ["admin"] (some "u1") c6Env).trace ∧
    (∀ st ∈ (protectedCheckAuth ["admin"] (some "u1") c6Env).states,
      protectedRender ["admin"] st ≠ .children) ∧
    GuardState.mk (some true) (some "registration") ∈
      (protectedCheckAuth ["admin"] (some "u1") c6Env).states ∧
    protectedRender ["admin"]
        { isAuth := some true, role := some "registration" } =
      .navigate "/login" ∧
    (protectedCheckAuth ["admin"] (some "u1") c6Env).final =
      { isAuth := some false, role := none } ∧
    protectedRender ["admin"]
        (protectedCheckAuth ["admin"] (some "u1") c6Env).final = .loading ∧
    (c6Env.signOutCall = .ok none →
      (protectedCheckAuth ["admin"] (some "u1") c6Env).session = none) :=
  c6_route_guard_denied_amended ["admin"] (some "u1") c6Env
    { id := "u1", email := some "r@x.com" } "registration" rfl (by decide)
    (fun h => absurd h (by decide)) (by decide)

/-- **C7** (confirmed).  For every `AuthRoute` render with an active
session whose role resolves successfully, the guard redirects (never
rendering the sign-in/sign-up children) to the dashboard determined by
the resolved role: `admin` to `/admin`, `doctor` to `/doctor`,
`department` to `/department`, and any other role falls back to
`/login`. -/
theorem c7_authroute_redirect (env : AuthRouteEnv) (u : Principal)
    (role : String)
    (hs : env.getSession = .ok (some u))
    (hl : getUserDataWithRetry env.lookup 5 0 = (some role, none)) :
    authRouteRender (authRouteCheck env) = .navigate (dashboardPath (some role)) ∧
    authRouteRender (authRouteCheck env) ≠ .children ∧
    dashboardPath (some "admin") = "/admin" ∧
    dashboardPath (some "doctor") = "/doctor" ∧
    dashboardPath (some "department") = "/department" ∧
    (role ≠ "admin" → role ≠ "doctor" → role ≠ "department" →
      dashboardPath (some role) = "/login") := by
  refine ⟨?_, ?_, by decide, by decide, by decide, ?_⟩
  · simp [authRouteCheck, hs, hl, authRouteRender]
  · simp [authRouteCheck, hs, hl, authRouteRender]
  · intro h1 h2 h3
    simp [dashboardPath, h1, h2, h3]

/-- Witness for C7 at `c7Env`: a `department` Principal on the sign-in
route is redirected to `/department`. -/
theorem c7_authroute_redirect_witness :
    authRouteRender (authRouteCheck c7Env) =
      .navigate (dashboardPath (some "department")) ∧
    authRouteRender (authRouteCheck c7Env) ≠ .children ∧
    dashboardPath (some "admin") = "/admin" ∧
    dashboardPath (some "doctor") = "/doctor" ∧
    dashboardPath (some "department") = "/department" ∧
    ("department" ≠ "admin" → "department" ≠ "doctor" →
      "department" ≠ "department" → dashboardPath (some "department") = "/login") :=
  c7_authroute_redirect c7Env { id := "u1", email := some "d@x.com" }
    "department" rfl (by decide)

/-- **C8** (counterexample).  When the session store reports no current
authenticated user, `getCurrentUser` returns `{user: null, error: null}`,
which satisfies neither branch of the claimed dichotomy (a success value
with a null error, or a null value with a non-null error). -/
theorem c8_dichotomy_counterexample :
    ¬ resultDichotomy (getCurrentUserRun none c8EnvCur).1 ∧
    (getCurrentUserRun none c8EnvCur).1 = { user := none, error := none } := by
  decide

/-- **C8** (amended).  Every auth flow returns normally with a
result-with-error value for every environment of external responses,
including rejected SDK calls (each flow is a total function of its
environment, with every SDK rejection routed to the catch handler).
`signUp` and `signIn` satisfy the dichotomy — a present user with a null
error, or a null user with a non-null error; `signOut` returns a null
error exactly when the sign-out call resolved with no error; and
`getCurrentUser` satisfies the dichotomy except that when the session
store reports no current user it returns `{user: null, error: null}`. -/
theorem c8_flows_total_amended :
    (∀ (inp : SignUpInput) (env : SignUpEnv),
      resultDichotomy (signUpRun inp env).1) ∧
    (∀ (email pw : String) (s0 : Option String) (env : SignInEnv),
      resultDichotomy (signInRun email pw s0 env).1) ∧
    (∀ (s0 : Option String) (resp : Resp (Option Nat)),
      (signOutRun s0 resp).1 = none ↔ resp = .ok none) ∧
    (∀ (s0 : Option String) (env : GetUserEnv),
      resultDichotomy (getCurrentUserRun s0 env).1 ∨
        ((getCurrentUserRun s0 env).1 = { user := none, error := none } ∧
         ∃ ge, env.getUser = .ok (none, ge))) := by
  refine ⟨?_, ?_, ?_, ?_⟩
  · intro inp env
    obtain ⟨pc, ca, ins, del⟩ := env
    rcases pc with ⟨eu, pe⟩ | e1
    · rcases eu with _ | rid
      · rcases ca with ⟨cu, ce⟩ | e2
        · rcases ce with _ | e2
          · rcases cu with _ | u
            · simp [signUpRun, resultDichotomy]
            · rcases hins : insertLoop ins 3 0 none with k | ⟨le, k⟩ | ⟨e3, k⟩
              · simp [signUpRun, hins, resultDichotomy]
              · rcases del with d | e4 <;>
                  simp [signUpRun, hins, resultDichotomy]
              · simp [signUpRun, hins, resultDichotomy]
          · simp [signUpRun, resultDichotomy]
        · simp [signUpRun, resultDichotomy]
      · simp [signUpRun, resultDichotomy]
    · simp [signUpRun, resultDichotomy]
  · intro email pw s0 env
    obtain ⟨spw, lk, soc, rpc⟩ := env
    rcases spw with ⟨su, se⟩ | e1
    · rcases se with _ | e2
      · rcases su with _ | u
        · simp [signInRun, resultDichotomy]
        · rcases hlk : lookupLoop lk 5 0 none with ⟨row, k⟩ | ⟨le, k⟩
          · by_cases hdr : row.role = "doctor"
            · rcases rpc with r | e3
              · rcases r with _ | d
                · simp [signInRun, hlk, hdr, resultDichotomy]
                · rcases soc with so | e4 <;>
                    simp [signInRun, hlk, hdr, resultDichotomy]
              · simp [signInRun, hlk, hdr, resultDichotomy]
            · simp [signInRun, hlk, hdr, resultDichotomy]
          · rcases soc with so | e4 <;> simp [signInRun, hlk, resultDichotomy]
      · simp [signInRun, resultDichotomy]
    · simp [signInRun, resultDichotomy]
  · intro s0 resp
    rcases resp with so | e
    · rcases so with _ | e2 <;> simp [signOutRun]
    · simp [signOutRun]
  · intro s0 env
    obtain ⟨gu, lk, rpc⟩ := env
    rcases gu with ⟨guu, ge⟩ | e1
    · rcases guu with _ | u
      · exact Or.inr ⟨by simp [getCurrentUserRun], ge, rfl⟩
      · left
        rcases hlk : lookupLoop lk 5 0 none with ⟨row, k⟩ | ⟨le, k⟩
        · by_cases hdr : row.role = "doctor"
          · rcases rpc with r | e3
            · rcases r with _ | d <;>
                simp [getCurrentUserRun, hlk, hdr, resultDichotomy]
            · simp [getCurrentUserRun, hlk, hdr, resultDichotomy]
          · simp [getCurrentUserRun, hlk, hdr, resultDichotomy]
        · simp [getCurrentUserRun, hlk, resultDichotomy]
    · left
      simp [getCurrentUserRun, resultDichotomy]

/-- **C10** (confirmed).  `getCurrentUser` returns
`{user: null, error: null}` exactly when the session store reported no
current authenticated user: the absence of a session is reported as a
success with no user and is distinguishable from every failure case,
each of which carries a non-null error. -/
theorem c10_no_session_null_result (s0 : Option String) (env : GetUserEnv) :
    (getCurrentUserRun s0 env).1 = { user := none, error := none } ↔
      ∃ ge, env.getUser = .ok (none, ge) := by
  obtain ⟨gu, lk, rpc⟩ := env
  rcases gu with ⟨guu, ge⟩ | e1
  · rcases guu with _ | u
    · simp [getCurrentUserRun]
    · rcases hlk : lookupLoop lk 5 0 none with ⟨row, k⟩ | ⟨le, k⟩
      · by_cases hdr : row.role = "doctor"
        · rcases rpc with r | e3
          · rcases r with _ | d <;> simp [getCurrentUserRun, hlk, hdr]
          · simp [getCurrentUserRun, hlk, hdr]
        · simp [getCurrentUserRun, hlk, hdr]
      · simp [getCurrentUserRun, hlk]
  · simp [getCurrentUserRun]

end HmsFront
